import Mathlib

/-!
Verification of the `describe` command core of imgpkg
(`src/pkg/imgpkg/cmd/describe.go`): the description-tree data model, the text
renderer (`bundleTextPrinter.Print` / `printerRec`), the output-type
validation (`validateFlags`) and the control flow of `Run`.

Modelling conventions:
* Each call of `BeginLinef` on the UI emits exactly one output line; output is
  modelled as a `List String` of those lines (without the trailing newline
  characters of the Go format strings).
* `goui.NewIndentingUI` wraps a UI and prepends two spaces to every line; a
  stack of such wrappers is modelled by a natural-number indent level, two
  spaces per level (`emit`).
* The `api` package is not part of the given source tree; its
  `BundleDescription` data type is modelled from the spec's data model
  (reference, origin, annotations, ordered child bundles and images), with the
  `Content` struct inlined into the node.
* A Go `panic` is modelled as the `Except.error` branch of `Print`.
-/

/-- ImageNode of the description tree: digest reference, origin reference and
annotation entries (modelled from the spec's data model, the `api` package not
being part of the source tree). -/
structure ImageInfo where
  image : String
  origin : String
  annotations : List (String × String)
deriving DecidableEq, Repr

/-- BundleNode of the description tree: reference, origin, and the ordered
child bundles and child images (the `Content` struct inlined). -/
inductive BundleDescription where
  | mk (image : String) (origin : String)
       (bundles : List BundleDescription) (images : List ImageInfo)
deriving Repr

def BundleDescription.image : BundleDescription → String
  | .mk i _ _ _ => i

def BundleDescription.origin : BundleDescription → String
  | .mk _ o _ _ => o

def BundleDescription.bundles : BundleDescription → List BundleDescription
  | .mk _ _ bs _ => bs

def BundleDescription.images : BundleDescription → List ImageInfo
  | .mk _ _ _ imgs => imgs

/-- A run of `n` space characters. -/
def spaces (n : Nat) : String :=
  String.mk (List.replicate n ' ')

/-- One line emitted through a stack of `lvl` IndentingUI wrappers: two spaces
of indentation per level, then the line's content. -/
def emit (lvl : Nat) (content : String) : String :=
  spaces (2 * lvl) ++ content

/-- The second loop of `printerRec`: `Image:`/`Type: Image`/`Origin:` lines for
each child image. -/
def printImages (imgs : List ImageInfo) (lvl : Nat) : List String :=
  match imgs with
  | [] => []
  | i :: rest =>
      emit lvl ("Image: " ++ i.image) :: emit lvl "Type: Image"
        :: emit lvl ("Origin: " ++ i.origin) :: printImages rest lvl

mutual

/-- Model of `bundleTextPrinter.printerRec`: prints the `Images:` label at the
logger's level, then every child bundle (three header lines plus its recursive
body, one level deeper), then every child image (three lines, one level
deeper). `lvl` is the indent level of the logger passed to the Go function. -/
def printerRec (d : BundleDescription) (lvl : Nat) : List String :=
  match d with
  | .mk _ _ bs imgs =>
      emit lvl "Images:" :: (printBundles bs (lvl + 1) ++ printImages imgs (lvl + 1))

/-- The first loop of `printerRec`: `Image:`/`Type: Bundle`/`Origin:` lines for
each child bundle followed by the recursive body of that child. -/
def printBundles (bs : List BundleDescription) (lvl : Nat) : List String :=
  match bs with
  | [] => []
  | b :: rest =>
      emit lvl ("Image: " ++ b.image) :: emit lvl "Type: Bundle"
        :: emit lvl ("Origin: " ++ b.origin)
        :: (printerRec b lvl ++ printBundles rest lvl)

end

/-- Splits a character list at every occurrence of `c` (the separators are not
kept); the result always has one more part than there are occurrences of `c`. -/
def splitAtChar (c : Char) : List Char → List (List Char)
  | [] => [[]]
  | x :: xs =>
      match splitAtChar c xs with
      | [] => if x = c then [[], []] else [[x]]
      | h :: t => if x = c then [] :: h :: t else (x :: h) :: t

/-- Lowercase hexadecimal digit. -/
def isHexLower (c : Char) : Bool :=
  c.isDigit || ('a' ≤ c && c ≤ 'f')

/-- Digest part validation of the reference parser model: `sha256:` followed by
exactly 64 lowercase hexadecimal digits. -/
def validDigestChars (l : List Char) : Bool :=
  l.take 7 == "sha256:".data && (l.drop 7).length == 64 && (l.drop 7).all isHexLower

/-- Character allowed in the repository part of a reference (model restricted
to the classes the repository's references use). -/
def validRepoChar (c : Char) : Bool :=
  c.isLower || c.isDigit || c == '.' || c == '/' || c == '-' || c == '_' || c == ':'

/-- Repository part validation of the reference parser model. -/
def validRepo (l : List Char) : Bool :=
  !l.isEmpty && l.all validRepoChar

/-- Character allowed in a tag. -/
def validTagChar (c : Char) : Bool :=
  c.isAlphanum || c == '.' || c == '-' || c == '_'

/-- Tag validation of the reference parser model: nonempty, at most 128
characters, all from the tag alphabet. -/
def validTag (l : List Char) : Bool :=
  !l.isEmpty && decide (l.length ≤ 128) && l.all validTagChar

/-- Splits `repo:tag` at the last colon, provided the part after that colon
contains no `/` (otherwise the colon separates a registry port and the tag
defaults to `latest`, as it also does when there is no colon at all). -/
def splitTagPart (l : List Char) : List Char × List Char :=
  let suffix := (l.reverse.takeWhile (fun c => c ≠ ':')).reverse
  if suffix.length = l.length then (l, "latest".data)
  else if suffix.contains '/' then (l, "latest".data)
  else (l.take (l.length - suffix.length - 1), suffix)

/-- Parsed image reference: either digest form (`repo@sha256:…`) or tag form
(`repo:tag`, the tag defaulting to `latest`). -/
inductive Reference where
  | digest (repo : String) (dig : String)
  | tag (repo : String) (t : String)
deriving DecidableEq, Repr

/-- `Identifier()` of a parsed reference: the digest for digest form, the tag
for tag form. -/
def Reference.identifier : Reference → String
  | .digest _ d => d
  | .tag _ t => t

/-- Model of the external go-containerregistry `name.ParseReference` (the
library is not part of this source tree): a string containing one `@` parses
as a digest reference when the digest part is valid, a string without `@`
parses as a tag reference (tag defaulting to `latest`), anything else fails.
Character-level validation is restricted to the classes the repository's
references use (lowercase repositories, `sha256` digests). -/
def parseReference (s : String) : Option Reference :=
  match splitAtChar '@' s.data with
  | [base, dig] =>
      if validRepo base && validDigestChars dig then
        some (.digest (String.mk base) (String.mk dig))
      else none
  | [whole] =>
      let p := splitTagPart whole
      if validRepo p.1 && validTag p.2 then
        some (.tag (String.mk p.1) (String.mk p.2))
      else none
  | _ => none

/-- True exactly when the string parses as a digest-form reference. -/
def isDigestForm (s : String) : Bool :=
  match parseReference s with
  | some (.digest _ _) => true
  | _ => false

/-- Model of `bundleTextPrinter.Print`: parse the root's reference; on failure
the Go code panics (modelled as the `error` branch, carrying the panic
message); on success it emits the `Bundle SHA:` header with the reference's
identifier, a blank separator line, and the recursive body at level 0. -/
def Print (d : BundleDescription) : Except String (List String) :=
  match parseReference d.image with
  | none => .error ("Internal consistency: expected " ++ d.image ++ " to be a digest reference")
  | some ref => .ok (("Bundle SHA: " ++ ref.identifier) :: "" :: printerRec d 0)

/-- The possible output options (`DescribeOutputType` in the source). -/
def DescribeOutputType : List String := ["text", "yaml"]

/-- Model of `DescribeOptions.validateFlags`: scans `DescribeOutputType` for
the given value; returns the error message when no entry matches, `none` on
success. -/
def validateFlags (outputType : String) : Option String :=
  match DescribeOutputType.find? (fun s => s == outputType) with
  | some _ => none
  | none => some "--output-type can only have the following values [text, yaml]"

/-- Observable outcome of one `Run` invocation: success, a returned error, or
a panic escaping `Print`. -/
inductive RunOutcome where
  | ok
  | err (msg : String)
  | panicked (msg : String)
deriving DecidableEq, Repr

/-- Trace of one `Run` invocation: whether `api.DescribeBundle` (the Resolver)
was invoked, the lines printed, and the outcome. -/
structure RunTrace where
  resolverCalled : Bool
  printed : List String
  outcome : RunOutcome
deriving DecidableEq, Repr

/-- Model of `DescribeOptions.Run`, parametrized by the Resolver's result:
validate flags (returning the configuration error before any resolution),
invoke the Resolver, propagate its error unchanged, and render with the text
printer only for output type `text`. -/
def Run (outputType : String) (resolve : Except String BundleDescription) : RunTrace :=
  match validateFlags outputType with
  | some msg => ⟨false, [], .err msg⟩
  | none =>
      match resolve with
      | .error e => ⟨true, [], .err e⟩
      | .ok desc =>
          if outputType == "text" then
            match Print desc with
            | .error m => ⟨true, [], .panicked m⟩
            | .ok lines => ⟨true, lines, .ok⟩
          else ⟨true, [], .ok⟩

/-- The line with its indentation removed. -/
def dropIndent (s : String) : String :=
  String.mk (s.data.dropWhile (fun c => c == ' '))

/-- Number of leading space characters of a line. -/
def leadingSpaces (s : String) : Nat :=
  (s.data.takeWhile (fun c => c == ' ')).length

/-- A `Type: Bundle` line (any indentation). -/
def isTypeBundleLine (s : String) : Bool :=
  dropIndent s == "Type: Bundle"

/-- A `Type: Image` line (any indentation). -/
def isTypeImageLine (s : String) : Bool :=
  dropIndent s == "Type: Image"

/-- A `Type:` line of either kind. -/
def isTypeLine (s : String) : Bool :=
  isTypeBundleLine s || isTypeImageLine s

/-- A line starting (after indentation) with `Image: `. -/
def isImageLine (s : String) : Bool :=
  (dropIndent s).data.take 7 == "Image: ".data

/-- A line starting (after indentation) with `Origin: `. -/
def isOriginLine (s : String) : Bool :=
  (dropIndent s).data.take 8 == "Origin: ".data

/-- An `Annotations:` label line (any indentation). -/
def isAnnotationsLine (s : String) : Bool :=
  dropIndent s == "Annotations:"

/-- Depth-annotated rendering of the image lines, following the spec's words:
every line of an ImageNode's printed block carries the node's depth. -/
def layoutImages (imgs : List ImageInfo) (lvl : Nat) : List (Nat × String) :=
  match imgs with
  | [] => []
  | i :: rest =>
      (lvl, "Image: " ++ i.image) :: (lvl, "Type: Image")
        :: (lvl, "Origin: " ++ i.origin) :: layoutImages rest lvl

mutual

/-- Depth-annotated layout following the spec's words (§8): each printed line
is paired with the depth of the node it belongs to — a node's `Image:`,
`Type:` and `Origin:` lines carry the node's depth from the root (the root's
direct children depth `lvl + 1` when the root renders at `lvl`), and a node's
child-list label carries the node's own block depth. -/
def layoutSpec (d : BundleDescription) (lvl : Nat) : List (Nat × String) :=
  match d with
  | .mk _ _ bs imgs =>
      (lvl, "Images:") :: (layoutBundles bs (lvl + 1) ++ layoutImages imgs (lvl + 1))

/-- Depth-annotated layout of a list of sibling BundleNodes at depth `lvl`. -/
def layoutBundles (bs : List BundleDescription) (lvl : Nat) : List (Nat × String) :=
  match bs with
  | [] => []
  | b :: rest =>
      (lvl, "Image: " ++ b.image) :: (lvl, "Type: Bundle")
        :: (lvl, "Origin: " ++ b.origin)
        :: (layoutSpec b lvl ++ layoutBundles rest lvl)

end

/-- Tree with the same image (same digest reference) under two distinct parent
bundles. -/
def dupTree : BundleDescription :=
  .mk "root" "root-origin"
    [.mk "b1-ref" "b1-origin" [] [⟨"registry.io/shared-digest-img", "shared-origin", []⟩],
     .mk "b2-ref" "b2-origin" [] [⟨"registry.io/shared-digest-img", "shared-origin", []⟩]]
    []

/-- Root with a single ImageNode child carrying a non-empty annotations map
(the literal example scenario of the spec). -/
def annTree : BundleDescription :=
  .mk "root" "root-origin" []
    [⟨"app-img-ref", "app-img-origin",
      [("kbld.carvel.dev/id", "my.registry.io/simple-application")]⟩]

/-- Root with one child bundle containing one leaf image and no annotations,
used to compare the renderer's indentation against the documented sample. -/
def c6Tree : BundleDescription :=
  .mk "root" "root-origin"
    [.mk "child-bundle-ref" "child-bundle-origin" []
      [⟨"leaf-img-ref", "leaf-img-origin", []⟩]]
    []

/-- Transcription of the spec's documented reference sample (its §6 format
block) instantiated with `c6Tree`'s references; the annotation lines of the
sample are omitted because `c6Tree` carries no annotations. The sample places
the nested `Images:` label two units deep and the depth-2 block three units
deep. -/
def c6SampleLines : List String :=
  ["Images:",
   "  Image: child-bundle-ref",
   "  Type: Bundle",
   "  Origin: child-bundle-origin",
   "    Images:",
   "      Image: leaf-img-ref",
   "      Type: Image",
   "      Origin: leaf-img-origin"]

mutual

/-- Number of BundleNodes strictly below a node. -/
def numBundles : BundleDescription → Nat
  | .mk _ _ bs _ => numBundlesList bs

/-- Number of BundleNodes in a forest (each root included). -/
def numBundlesList : List BundleDescription → Nat
  | [] => 0
  | b :: rest => 1 + numBundles b + numBundlesList rest

end

mutual

/-- Number of ImageNodes strictly below a node. -/
def numImages : BundleDescription → Nat
  | .mk _ _ bs imgs => numImagesList bs + imgs.length

/-- Number of ImageNodes below a forest of bundles. -/
def numImagesList : List BundleDescription → Nat
  | [] => 0
  | b :: rest => numImages b + numImagesList rest

end

/-- Adjacency property of a rendered line list: every `Type:` line is preceded
by an `Image:` line and followed by an `Origin:` line (positions read with
default `""`, which is no kind of line). -/
def Adj (xs : List String) : Prop :=
  ∀ i, isTypeLine (xs.getD i "") = true →
    0 < i ∧ isImageLine (xs.getD (i - 1) "") = true
      ∧ isOriginLine (xs.getD (i + 1) "") = true

theorem dropWhile_replicate_space (n : Nat) (l : List Char) :
    (List.replicate n ' ' ++ l).dropWhile (fun c => c == ' ') =
      l.dropWhile (fun c => c == ' ') := by
  induction n with
  | zero => simp
  | succ k ih => simp [List.replicate_succ, List.dropWhile_cons, ih]

theorem takeWhile_replicate_space (n : Nat) (c : Char) (l : List Char)
    (h : (c == ' ') = false) :
    (List.replicate n ' ' ++ c :: l).takeWhile (fun x => x == ' ') =
      List.replicate n ' ' := by
  induction n with
  | zero => simp [List.takeWhile_cons, h]
  | succ k ih => simp [List.replicate_succ, List.takeWhile_cons, ih]

theorem emit_data (lvl : Nat) (t : String) :
    (emit lvl t).data = List.replicate (2 * lvl) ' ' ++ t.data := by
  simp [emit, spaces, String.data_append]

theorem dropIndent_emit (lvl : Nat) (t : String)
    (h : t.data.dropWhile (fun c => c == ' ') = t.data) :
    dropIndent (emit lvl t) = t := by
  unfold dropIndent
  rw [emit_data, dropWhile_replicate_space, h]

theorem dropIndent_emit_append (lvl : Nat) (p s : String) (c : Char) (r : List Char)
    (hp : p.data = c :: r) (hc : (c == ' ') = false) :
    dropIndent (emit lvl (p ++ s)) = p ++ s := by
  apply dropIndent_emit
  rw [String.data_append, hp, List.cons_append]
  simp [List.dropWhile_cons, hc]

theorem append_ne_of_data_head (p q s : String) (cp cq : Char) (rp rq : List Char)
    (hp : p.data = cp :: rp) (hq : q.data = cq :: rq) (h : cp ≠ cq) :
    (p ++ s) ≠ q := by
  intro heq
  have h2 := congrArg String.data heq
  rw [String.data_append, hp, hq, List.cons_append] at h2
  injection h2 with h3 _
  exact h h3

@[simp] theorem isTypeBundleLine_label (lvl : Nat) :
    isTypeBundleLine (emit lvl "Images:") = false := by
  unfold isTypeBundleLine
  rw [dropIndent_emit lvl "Images:" (by decide)]
  decide

@[simp] theorem isTypeBundleLine_typeB (lvl : Nat) :
    isTypeBundleLine (emit lvl "Type: Bundle") = true := by
  unfold isTypeBundleLine
  rw [dropIndent_emit lvl "Type: Bundle" (by decide)]
  decide

@[simp] theorem isTypeBundleLine_typeI (lvl : Nat) :
    isTypeBundleLine (emit lvl "Type: Image") = false := by
  unfold isTypeBundleLine
  rw [dropIndent_emit lvl "Type: Image" (by decide)]
  decide

@[simp] theorem isTypeBundleLine_image (lvl : Nat) (s : String) :
    isTypeBundleLine (emit lvl ("Image: " ++ s)) = false := by
  unfold isTypeBundleLine
  rw [dropIndent_emit_append lvl "Image: " s 'I' _ rfl (by decide)]
  exact beq_eq_false_iff_ne.mpr
    (append_ne_of_data_head "Image: " "Type: Bundle" s 'I' 'T' _ _ rfl rfl (by decide))

@[simp] theorem isTypeBundleLine_origin (lvl : Nat) (s : String) :
    isTypeBundleLine (emit lvl ("Origin: " ++ s)) = false := by
  unfold isTypeBundleLine
  rw [dropIndent_emit_append lvl "Origin: " s 'O' _ rfl (by decide)]
  exact beq_eq_false_iff_ne.mpr
    (append_ne_of_data_head "Origin: " "Type: Bundle" s 'O' 'T' _ _ rfl rfl (by decide))

@[simp] theorem isTypeImageLine_label (lvl : Nat) :
    isTypeImageLine (emit lvl "Images:") = false := by
  unfold isTypeImageLine
  rw [dropIndent_emit lvl "Images:" (by decide)]
  decide

@[simp] theorem isTypeImageLine_typeB (lvl : Nat) :
    isTypeImageLine (emit lvl "Type: Bundle") = false := by
  unfold isTypeImageLine
  rw [dropIndent_emit lvl "Type: Bundle" (by decide)]
  decide

@[simp] theorem isTypeImageLine_typeI (lvl : Nat) :
    isTypeImageLine (emit lvl "Type: Image") = true := by
  unfold isTypeImageLine
  rw [dropIndent_emit lvl "Type: Image" (by decide)]
  decide

@[simp] theorem isTypeImageLine_image (lvl : Nat) (s : String) :
    isTypeImageLine (emit lvl ("Image: " ++ s)) = false := by
  unfold isTypeImageLine
  rw [dropIndent_emit_append lvl "Image: " s 'I' _ rfl (by decide)]
  exact beq_eq_false_iff_ne.mpr
    (append_ne_of_data_head "Image: " "Type: Image" s 'I' 'T' _ _ rfl rfl (by decide))

@[simp] theorem isTypeImageLine_origin (lvl : Nat) (s : String) :
    isTypeImageLine (emit lvl ("Origin: " ++ s)) = false := by
  unfold isTypeImageLine
  rw [dropIndent_emit_append lvl "Origin: " s 'O' _ rfl (by decide)]
  exact beq_eq_false_iff_ne.mpr
    (append_ne_of_data_head "Origin: " "Type: Image" s 'O' 'T' _ _ rfl rfl (by decide))

@[simp] theorem isTypeLine_label (lvl : Nat) :
    isTypeLine (emit lvl "Images:") = false := by
  simp [isTypeLine]

@[simp] theorem isTypeLine_image (lvl : Nat) (s : String) :
    isTypeLine (emit lvl ("Image: " ++ s)) = false := by
  simp [isTypeLine]

@[simp] theorem isTypeLine_origin (lvl : Nat) (s : String) :
    isTypeLine (emit lvl ("Origin: " ++ s)) = false := by
  simp [isTypeLine]

@[simp] theorem isImageLine_image (lvl : Nat) (s : String) :
    isImageLine (emit lvl ("Image: " ++ s)) = true := by
  unfold isImageLine
  rw [dropIndent_emit_append lvl "Image: " s 'I' _ rfl (by decide)]
  rw [String.data_append, List.take_append_of_le_length (by decide)]
  decide

@[simp] theorem isOriginLine_origin (lvl : Nat) (s : String) :
    isOriginLine (emit lvl ("Origin: " ++ s)) = true := by
  unfold isOriginLine
  rw [dropIndent_emit_append lvl "Origin: " s 'O' _ rfl (by decide)]
  rw [String.data_append, List.take_append_of_le_length (by decide)]
  decide

@[simp] theorem isAnnotationsLine_label (lvl : Nat) :
    isAnnotationsLine (emit lvl "Images:") = false := by
  unfold isAnnotationsLine
  rw [dropIndent_emit lvl "Images:" (by decide)]
  decide

@[simp] theorem isAnnotationsLine_typeB (lvl : Nat) :
    isAnnotationsLine (emit lvl "Type: Bundle") = false := by
  unfold isAnnotationsLine
  rw [dropIndent_emit lvl "Type: Bundle" (by decide)]
  decide

@[simp] theorem isAnnotationsLine_typeI (lvl : Nat) :
    isAnnotationsLine (emit lvl "Type: Image") = false := by
  unfold isAnnotationsLine
  rw [dropIndent_emit lvl "Type: Image" (by decide)]
  decide

@[simp] theorem isAnnotationsLine_image (lvl : Nat) (s : String) :
    isAnnotationsLine (emit lvl ("Image: " ++ s)) = false := by
  unfold isAnnotationsLine
  rw [dropIndent_emit_append lvl "Image: " s 'I' _ rfl (by decide)]
  exact beq_eq_false_iff_ne.mpr
    (append_ne_of_data_head "Image: " "Annotations:" s 'I' 'A' _ _ rfl rfl (by decide))

@[simp] theorem isAnnotationsLine_origin (lvl : Nat) (s : String) :
    isAnnotationsLine (emit lvl ("Origin: " ++ s)) = false := by
  unfold isAnnotationsLine
  rw [dropIndent_emit_append lvl "Origin: " s 'O' _ rfl (by decide)]
  exact beq_eq_false_iff_ne.mpr
    (append_ne_of_data_head "Origin: " "Annotations:" s 'O' 'A' _ _ rfl rfl (by decide))


theorem adj_nil : Adj [] := by
  intro i hi
  rw [List.getD_eq_default [] "" (Nat.zero_le i)] at hi
  exact absurd hi (by decide)

theorem adj_append {A B : List String} (hA : Adj A) (hB : Adj B) : Adj (A ++ B) := by
  intro i hi
  by_cases h : i < A.length
  · rw [List.getD_append A B "" i h] at hi
    obtain ⟨hpos, him, hor⟩ := hA i hi
    have hor2 : i + 1 < A.length := by
      by_contra hcon
      rw [List.getD_eq_default A "" (by omega)] at hor
      exact absurd hor (by decide)
    refine ⟨hpos, ?_, ?_⟩
    · rw [List.getD_append A B "" (i - 1) (by omega)]
      exact him
    · rw [List.getD_append A B "" (i + 1) hor2]
      exact hor
  · have hge : A.length ≤ i := by omega
    rw [List.getD_append_right A B "" i hge] at hi
    obtain ⟨hpos, him, hor⟩ := hB (i - A.length) hi
    refine ⟨by omega, ?_, ?_⟩
    · rw [List.getD_append_right A B "" (i - 1) (by omega)]
      have e : i - 1 - A.length = i - A.length - 1 := by omega
      rw [e]
      exact him
    · rw [List.getD_append_right A B "" (i + 1) (by omega)]
      have e : i + 1 - A.length = i - A.length + 1 := by omega
      rw [e]
      exact hor

theorem adj_cons_nontype {x : String} {xs : List String} (hx : isTypeLine x = false)
    (hxs : Adj xs) : Adj (x :: xs) := by
  have hsingle : Adj [x] := by
    intro i hi
    match i with
    | 0 =>
      rw [show [x].getD 0 "" = x from rfl, hx] at hi
      cases hi
    | n + 1 =>
      rw [List.getD_eq_default [x] "" (Nat.le_add_left 1 n)] at hi
      exact absurd hi (by decide)
  have h2 := adj_append hsingle hxs
  simpa using h2

theorem adj_block {img typ org : String} {rest : List String}
    (himg : isImageLine img = true) (horg : isOriginLine org = true)
    (h1 : isTypeLine img = false) (h3 : isTypeLine org = false)
    (hrest : Adj rest) : Adj (img :: typ :: org :: rest) := by
  have htriple : Adj [img, typ, org] := by
    intro i hi
    match i with
    | 0 =>
      rw [show [img, typ, org].getD 0 "" = img from rfl, h1] at hi
      cases hi
    | 1 =>
      refine ⟨by omega, ?_, ?_⟩
      · rw [show [img, typ, org].getD 0 "" = img from rfl]
        exact himg
      · rw [show [img, typ, org].getD 2 "" = org from rfl]
        exact horg
    | 2 =>
      rw [show [img, typ, org].getD 2 "" = org from rfl, h3] at hi
      cases hi
    | n + 3 =>
      rw [List.getD_eq_default [img, typ, org] "" (Nat.le_add_left 3 n)] at hi
      exact absurd hi (by decide)
  have h2 := adj_append htriple hrest
  simpa using h2

theorem countP_typeB_printImages (imgs : List ImageInfo) (lvl : Nat) :
    (printImages imgs lvl).countP isTypeBundleLine = 0 := by
  induction imgs with
  | nil => simp [printImages]
  | cons i rest ih => simp [printImages, List.countP_cons, ih]

theorem countP_typeI_printImages (imgs : List ImageInfo) (lvl : Nat) :
    (printImages imgs lvl).countP isTypeImageLine = imgs.length := by
  induction imgs with
  | nil => simp [printImages]
  | cons i rest ih => simp [printImages, List.countP_cons, ih]

theorem countP_ann_printImages (imgs : List ImageInfo) (lvl : Nat) :
    (printImages imgs lvl).countP isAnnotationsLine = 0 := by
  induction imgs with
  | nil => simp [printImages]
  | cons i rest ih => simp [printImages, List.countP_cons, ih]

theorem adj_printImages (imgs : List ImageInfo) (lvl : Nat) :
    Adj (printImages imgs lvl) := by
  induction imgs with
  | nil =>
    simp only [printImages]
    exact adj_nil
  | cons i rest ih =>
    simp only [printImages]
    exact adj_block (isImageLine_image _ _) (isOriginLine_origin _ _)
      (isTypeLine_image _ _) (isTypeLine_origin _ _) ih

mutual

theorem countP_typeB_printerRec (d : BundleDescription) (lvl : Nat) :
    (printerRec d lvl).countP isTypeBundleLine = numBundles d := by
  match d with
  | .mk i o bs imgs =>
    simp only [printerRec, numBundles]
    simp [List.countP_cons, List.countP_append, countP_typeB_printBundles bs (lvl + 1),
      countP_typeB_printImages]

theorem countP_typeB_printBundles (bs : List BundleDescription) (lvl : Nat) :
    (printBundles bs lvl).countP isTypeBundleLine = numBundlesList bs := by
  match bs with
  | [] => simp [printBundles, numBundlesList]
  | b :: rest =>
    simp only [printBundles, numBundlesList]
    simp [List.countP_cons, List.countP_append, countP_typeB_printerRec b lvl,
      countP_typeB_printBundles rest lvl]
    omega

end

mutual

theorem countP_typeI_printerRec (d : BundleDescription) (lvl : Nat) :
    (printerRec d lvl).countP isTypeImageLine = numImages d := by
  match d with
  | .mk i o bs imgs =>
    simp only [printerRec, numImages]
    simp [List.countP_cons, List.countP_append, countP_typeI_printBundles bs (lvl + 1),
      countP_typeI_printImages]

theorem countP_typeI_printBundles (bs : List BundleDescription) (lvl : Nat) :
    (printBundles bs lvl).countP isTypeImageLine = numImagesList bs := by
  match bs with
  | [] => simp [printBundles, numImagesList]
  | b :: rest =>
    simp only [printBundles, numImagesList]
    simp [List.countP_cons, List.countP_append, countP_typeI_printerRec b lvl,
      countP_typeI_printBundles rest lvl]

end

mutual

theorem countP_ann_printerRec (d : BundleDescription) (lvl : Nat) :
    (printerRec d lvl).countP isAnnotationsLine = 0 := by
  match d with
  | .mk i o bs imgs =>
    simp only [printerRec]
    simp [List.countP_cons, List.countP_append, countP_ann_printBundles bs (lvl + 1),
      countP_ann_printImages]

theorem countP_ann_printBundles (bs : List BundleDescription) (lvl : Nat) :
    (printBundles bs lvl).countP isAnnotationsLine = 0 := by
  match bs with
  | [] => simp [printBundles]
  | b :: rest =>
    simp only [printBundles]
    simp [List.countP_cons, List.countP_append, countP_ann_printerRec b lvl,
      countP_ann_printBundles rest lvl]

end

mutual

theorem adj_printerRec (d : BundleDescription) (lvl : Nat) : Adj (printerRec d lvl) := by
  match d with
  | .mk i o bs imgs =>
    simp only [printerRec]
    exact adj_cons_nontype (isTypeLine_label _)
      (adj_append (adj_printBundles bs (lvl + 1)) (adj_printImages imgs (lvl + 1)))

theorem adj_printBundles (bs : List BundleDescription) (lvl : Nat) :
    Adj (printBundles bs lvl) := by
  match bs with
  | [] =>
    simp only [printBundles]
    exact adj_nil
  | b :: rest =>
    simp only [printBundles]
    exact adj_block (isImageLine_image _ _) (isOriginLine_origin _ _)
      (isTypeLine_image _ _) (isTypeLine_origin _ _)
      (adj_append (adj_printerRec b lvl) (adj_printBundles rest lvl))

end

theorem printImages_eq_join (imgs : List ImageInfo) (lvl : Nat) :
    printImages imgs lvl =
      (imgs.map (fun i =>
        [emit lvl ("Image: " ++ i.image), emit lvl "Type: Image",
         emit lvl ("Origin: " ++ i.origin)])).flatten := by
  induction imgs with
  | nil => simp [printImages]
  | cons i rest ih => simp [printImages, ih]

theorem printBundles_eq_join (bs : List BundleDescription) (lvl : Nat) :
    printBundles bs lvl =
      (bs.map (fun b =>
        [emit lvl ("Image: " ++ b.image), emit lvl "Type: Bundle",
         emit lvl ("Origin: " ++ b.origin)] ++ printerRec b lvl)).flatten := by
  induction bs with
  | nil => simp [printBundles]
  | cons b rest ih => simp [printBundles, ih]

theorem printImages_eq_layout (imgs : List ImageInfo) (lvl : Nat) :
    printImages imgs lvl =
      (layoutImages imgs lvl).map (fun p => spaces (2 * p.1) ++ p.2) := by
  induction imgs with
  | nil => simp [printImages, layoutImages]
  | cons i rest ih => simp [printImages, layoutImages, emit, ih]

mutual

theorem printerRec_eq_layout (d : BundleDescription) (lvl : Nat) :
    printerRec d lvl = (layoutSpec d lvl).map (fun p => spaces (2 * p.1) ++ p.2) := by
  match d with
  | .mk i o bs imgs =>
    simp only [printerRec, layoutSpec, List.map_cons, List.map_append]
    rw [printerRec_eq_layout_bundles bs (lvl + 1), printImages_eq_layout imgs (lvl + 1)]
    rfl

theorem printerRec_eq_layout_bundles (bs : List BundleDescription) (lvl : Nat) :
    printBundles bs lvl = (layoutBundles bs lvl).map (fun p => spaces (2 * p.1) ++ p.2) := by
  match bs with
  | [] => simp [printBundles, layoutBundles]
  | b :: rest =>
    simp only [printBundles, layoutBundles, List.map_cons, List.map_append]
    rw [printerRec_eq_layout b lvl, printerRec_eq_layout_bundles rest lvl]
    rfl

end

theorem leadingSpaces_emit (lvl : Nat) (t : String) (c : Char) (r : List Char)
    (ht : t.data = c :: r) (hc : (c == ' ') = false) :
    leadingSpaces (emit lvl t) = 2 * lvl := by
  unfold leadingSpaces
  rw [emit_data, ht, takeWhile_replicate_space _ _ _ hc, List.length_replicate]

theorem leadingSpaces_emit_append (lvl : Nat) (p s : String) (c : Char) (r : List Char)
    (hp : p.data = c :: r) (hc : (c == ' ') = false) :
    leadingSpaces (emit lvl (p ++ s)) = 2 * lvl := by
  apply leadingSpaces_emit lvl (p ++ s) c (r ++ s.data)
  · rw [String.data_append, hp, List.cons_append]
  · exact hc

theorem mapLS_printImages (imgs : List ImageInfo) (lvl : Nat) :
    (printImages imgs lvl).map leadingSpaces =
      (layoutImages imgs lvl).map (fun p => 2 * p.1) := by
  induction imgs with
  | nil => simp [printImages, layoutImages]
  | cons i rest ih =>
    simp only [printImages, layoutImages, List.map_cons, ih]
    rw [leadingSpaces_emit_append lvl "Image: " _ 'I' _ rfl (by decide),
      leadingSpaces_emit lvl "Type: Image" 'T' _ rfl (by decide),
      leadingSpaces_emit_append lvl "Origin: " _ 'O' _ rfl (by decide)]

mutual

theorem mapLS_printerRec (d : BundleDescription) (lvl : Nat) :
    (printerRec d lvl).map leadingSpaces =
      (layoutSpec d lvl).map (fun p => 2 * p.1) := by
  match d with
  | .mk i o bs imgs =>
    simp only [printerRec, layoutSpec, List.map_cons, List.map_append]
    rw [mapLS_printBundles bs (lvl + 1), mapLS_printImages imgs (lvl + 1),
      leadingSpaces_emit lvl "Images:" 'I' _ rfl (by decide)]

theorem mapLS_printBundles (bs : List BundleDescription) (lvl : Nat) :
    (printBundles bs lvl).map leadingSpaces =
      (layoutBundles bs lvl).map (fun p => 2 * p.1) := by
  match bs with
  | [] => simp [printBundles, layoutBundles]
  | b :: rest =>
    simp only [printBundles, layoutBundles, List.map_cons, List.map_append]
    rw [mapLS_printerRec b lvl, mapLS_printBundles rest lvl,
      leadingSpaces_emit_append lvl "Image: " _ 'I' _ rfl (by decide),
      leadingSpaces_emit lvl "Type: Bundle" 'T' _ rfl (by decide),
      leadingSpaces_emit_append lvl "Origin: " _ 'O' _ rfl (by decide)]

end

theorem validateFlags_eq (s : String) :
    validateFlags s =
      if s = "text" ∨ s = "yaml" then none
      else some "--output-type can only have the following values [text, yaml]" := by
  by_cases h1 : s = "text"
  · subst h1
    simp [validateFlags, DescribeOutputType]
  · by_cases h2 : s = "yaml"
    · subst h2
      simp [validateFlags, DescribeOutputType]
    · have e1 : ("text" == s) = false := beq_eq_false_iff_ne.mpr (Ne.symm h1)
      have e2 : ("yaml" == s) = false := beq_eq_false_iff_ne.mpr (Ne.symm h2)
      simp [validateFlags, DescribeOutputType, List.find?, e1, e2, h1, h2]

/-- C1: the claim states that an ImageNode with a non-empty annotations map
gets an `Annotations:` block after its `Origin:` line. The renderer in the
source never emits an `Annotations:` line: the count of such lines is 0 for
every tree, and for the spec's literal annotated example the output consists
of the three node lines only, the annotation entries being ignored. -/
theorem claim_C1_no_annotations_block :
    (∀ (d : BundleDescription) (lvl : Nat),
      (printerRec d lvl).countP isAnnotationsLine = 0) ∧
    printerRec annTree 0 =
      ["Images:", "  Image: app-img-ref", "  Type: Image", "  Origin: app-img-origin"] :=
  ⟨fun d lvl => countP_ann_printerRec d lvl, by decide⟩

/-- C2: output-type validation succeeds exactly for `text` and `yaml`; for
every other string it fails with exactly the message
`--output-type can only have the following values [text, yaml]`. -/
theorem claim_C2_output_type_validation (s : String) :
    validateFlags s =
      if s = "text" ∨ s = "yaml" then none
      else some "--output-type can only have the following values [text, yaml]" :=
  validateFlags_eq s

/-- C3: for an output-type value outside the valid enumeration, `Run` returns
the configuration error and the Resolver (`api.DescribeBundle`) is never
invoked. -/
theorem claim_C3_abort_before_resolver (s : String)
    (r : Except String BundleDescription) (h1 : s ≠ "text") (h2 : s ≠ "yaml") :
    Run s r =
      ⟨false, [], .err "--output-type can only have the following values [text, yaml]"⟩ := by
  simp [Run, validateFlags_eq, h1, h2]

theorem claim_C3_witness :
    Run "json" (Except.ok (.mk "r" "o" [] [])) =
      ⟨false, [], .err "--output-type can only have the following values [text, yaml]"⟩ :=
  claim_C3_abort_before_resolver "json" _ (by decide) (by decide)

/-- C4: at every node all BundleNode children render before all ImageNode
children, each group as the concatenation of per-child blocks in exactly the
supplied order with no sorting and no deduplication; and in `dupTree`, where
the same image reference sits under two distinct parent bundles, its `Image:`
line is rendered exactly twice. -/
theorem claim_C4_sibling_order :
    (∀ (d : BundleDescription) (lvl : Nat),
      printerRec d lvl =
        emit lvl "Images:" ::
          ((d.bundles.map (fun b =>
              [emit (lvl + 1) ("Image: " ++ b.image), emit (lvl + 1) "Type: Bundle",
               emit (lvl + 1) ("Origin: " ++ b.origin)] ++ printerRec b (lvl + 1))).flatten
            ++ (d.images.map (fun i =>
              [emit (lvl + 1) ("Image: " ++ i.image), emit (lvl + 1) "Type: Image",
               emit (lvl + 1) ("Origin: " ++ i.origin)])).flatten)) ∧
    (printerRec dupTree 0).countP
      (fun s => s == "    Image: registry.io/shared-digest-img") = 2 := by
  constructor
  · intro d lvl
    match d with
    | .mk i o bs imgs =>
      simp only [printerRec, BundleDescription.bundles, BundleDescription.images]
      rw [printBundles_eq_join, printImages_eq_join]
  · decide

/-- C5: for every tree the rendered text contains exactly `numBundles d` lines
`Type: Bundle` and exactly `numImages d` lines `Type: Image`, and every such
line is immediately preceded by an `Image:` line and immediately followed by
an `Origin:` line. -/
theorem claim_C5_line_counts (d : BundleDescription) (lvl : Nat) :
    (printerRec d lvl).countP isTypeBundleLine = numBundles d ∧
    (printerRec d lvl).countP isTypeImageLine = numImages d ∧
    Adj (printerRec d lvl) :=
  ⟨countP_typeB_printerRec d lvl, countP_typeI_printerRec d lvl, adj_printerRec d lvl⟩

theorem claim_C5_witness :
    (printerRec (.mk "r" "o" [] [⟨"ir", "io", []⟩]) 0).countP isTypeBundleLine = 0 ∧
    (printerRec (.mk "r" "o" [] [⟨"ir", "io", []⟩]) 0).countP isTypeImageLine = 1 ∧
    (0 < 2 ∧
      isImageLine ((printerRec (.mk "r" "o" [] [⟨"ir", "io", []⟩]) 0).getD 1 "") = true ∧
      isOriginLine ((printerRec (.mk "r" "o" [] [⟨"ir", "io", []⟩]) 0).getD 3 "") = true) := by
  have h := claim_C5_line_counts (.mk "r" "o" [] [⟨"ir", "io", []⟩]) 0
  exact ⟨h.1, h.2.1, h.2.2 2 (by decide)⟩

/-- C6 counterexample: for a depth-2 tree the renderer indents the nested
`Images:` label and the depth-2 block two spaces per depth level, which
differs from the documented reference sample (the sample places the depth-2
block three units deep), so the output does not match the sample. -/
theorem claim_C6_counterexample :
    printerRec c6Tree 0 =
      ["Images:",
       "  Image: child-bundle-ref",
       "  Type: Bundle",
       "  Origin: child-bundle-origin",
       "  Images:",
       "    Image: leaf-img-ref",
       "    Type: Image",
       "    Origin: leaf-img-origin"] ∧
    printerRec c6Tree 0 ≠ c6SampleLines :=
  ⟨by decide, by decide⟩

/-- C6 (amended): every printed line of a node's block is indented exactly two
spaces per level of the node's depth from the root (root's direct children one
level, their children two levels, no change across siblings): the renderer's
output is the spec-level depth-annotated layout rendered with `2 · depth`
spaces, and the measured leading-space count of every line equals `2 · depth`.
The clause of the original claim requiring a match with the documented
reference sample is dropped: the sample indents depth-2 blocks three units. -/
theorem claim_C6_indent_depth (d : BundleDescription) (lvl : Nat) :
    printerRec d lvl = (layoutSpec d lvl).map (fun p => spaces (2 * p.1) ++ p.2) ∧
    (printerRec d lvl).map leadingSpaces = (layoutSpec d lvl).map (fun p => 2 * p.1) :=
  ⟨printerRec_eq_layout d lvl, mapLS_printerRec d lvl⟩

/-- C7: a root whose content has no bundles and no images renders exactly the
`Bundle SHA:` header carrying the digest, a blank separator line, and the
`Images:` label, with no further lines. -/
theorem claim_C7_empty_root (img org repo dig : String)
    (h : parseReference img = some (.digest repo dig)) :
    Print (.mk img org [] []) = .ok ["Bundle SHA: " ++ dig, "", "Images:"] := by
  simp only [Print, BundleDescription.image, h]
  simp [Reference.identifier, printerRec, printBundles, printImages,
    show emit 0 "Images:" = "Images:" from by decide]

theorem claim_C7_witness :
    Print (.mk
        "registry.io/b@sha256:aaaaad700949154e429d28661d01c99d53a38af0d5275842ccbf0bf6dbef8ca4"
        "o" [] []) =
      .ok ["Bundle SHA: " ++
            "sha256:aaaaad700949154e429d28661d01c99d53a38af0d5275842ccbf0bf6dbef8ca4",
           "", "Images:"] :=
  claim_C7_empty_root
    "registry.io/b@sha256:aaaaad700949154e429d28661d01c99d53a38af0d5275842ccbf0bf6dbef8ca4"
    "o" "registry.io/b"
    "sha256:aaaaad700949154e429d28661d01c99d53a38af0d5275842ccbf0bf6dbef8ca4" (by decide)

/-- C8 counterexample: a tag-form root reference is not digest-form, yet the
renderer does not panic on it — `Print` returns normally, the header carrying
the tag identifier. -/
theorem claim_C8_counterexample :
    isDigestForm "my.registry.io/bundle:latest" = false ∧
    Print (.mk "my.registry.io/bundle:latest" "some-origin" [] []) =
      .ok ["Bundle SHA: latest", "", "Images:"] :=
  ⟨by decide, by rfl⟩

/-- C8 (amended): the renderer's hard failure (panic, modelled as the `error`
branch of `Print`) occurs exactly when the root reference fails to parse as
any image reference at all, not whenever it is not digest-form; for a
digest-form reference the panic branch is unreachable and the header carries
the digest extracted from the reference. -/
theorem claim_C8_defensive_check (d : BundleDescription) :
    ((∃ m, Print d = .error m) ↔ parseReference d.image = none) ∧
    (∀ repo dig, parseReference d.image = some (.digest repo dig) →
      Print d = .ok (("Bundle SHA: " ++ dig) :: "" :: printerRec d 0)) := by
  constructor
  · constructor
    · rintro ⟨m, hm⟩
      cases hp : parseReference d.image with
      | none => rfl
      | some ref =>
        unfold Print at hm
        rw [hp] at hm
        cases hm
    · intro h
      exact ⟨"Internal consistency: expected " ++ d.image ++ " to be a digest reference",
        by simp only [Print, h]⟩
  · intro repo dig h
    simp only [Print, h, Reference.identifier]

theorem claim_C8_witness :
    Print (.mk
        "registry.io/w@sha256:4c8b96d4fffdfae29258d94a22ae4ad1fe36139d47288b8960d9958d1e63a9d0"
        "o" [] []) =
      .ok (("Bundle SHA: " ++
            "sha256:4c8b96d4fffdfae29258d94a22ae4ad1fe36139d47288b8960d9958d1e63a9d0")
        :: "" :: printerRec (.mk
          "registry.io/w@sha256:4c8b96d4fffdfae29258d94a22ae4ad1fe36139d47288b8960d9958d1e63a9d0"
          "o" [] []) 0) :=
  (claim_C8_defensive_check _).2 "registry.io/w"
    "sha256:4c8b96d4fffdfae29258d94a22ae4ad1fe36139d47288b8960d9958d1e63a9d0" (by decide)

/-- C9: when validation passes and the Resolver fails, `Run` returns the
Resolver's error unchanged, the Resolver was invoked, and nothing is printed. -/
theorem claim_C9_resolver_error (s e : String) (h : s = "text" ∨ s = "yaml") :
    Run s (Except.error e) = ⟨true, [], .err e⟩ := by
  rcases h with h | h <;> subst h <;> simp [Run, validateFlags_eq]

theorem claim_C9_witness :
    Run "text" (Except.error "fetch failed: connection refused") =
      ⟨true, [], .err "fetch failed: connection refused"⟩ :=
  claim_C9_resolver_error "text" "fetch failed: connection refused" (Or.inl rfl)

/-- C10: with output type `yaml` and a successful resolution, `Run` prints
nothing and succeeds (the renderer is only invoked for `text`). -/
theorem claim_C10_yaml_silent (d : BundleDescription) :
    Run "yaml" (Except.ok d) = ⟨true, [], .ok⟩ := by
  simp [Run, validateFlags_eq]
